import Mathlib

/-!
# Verification of the OAuth token-verification pipeline (`auth.py`)

Shallow embedding of the token-gated request gateway:
`EntraIDAuth.validate_token`, `AuthMiddleware.__call__` and
`get_current_user` from `auth.py`, together with the behaviour of the
PyJWT primitives the code calls (`jwt.decode`,
`PyJWKClient.get_signing_key_from_jwt`).

A raw JWT string is modelled by the attributes the PyJWT primitives
observe of it: whether it splits into the three dot-separated JWS
segments, whether its header/payload segments parse, the declared `kid`
and `alg`, the claim set, and the key-id of the JWKS key (if any) under
which its signature cryptographically verifies.  PyJWT semantics
modelled here are those of the version the code requires (the
`issuer=<list>` argument of `jwt.decode` is honoured, i.e. PyJWT >= 2.10):

* `PyJWKClient.get_signing_key_from_jwt` first runs a full unverified
  decode of the token (header and payload are parsed), then fetches the
  JWKS document and looks up the declared `kid`; its failures
  (`PyJWKClientError`) are not `InvalidTokenError`s.
* `jwt.decode` with verification parses the JWS, checks the algorithm
  against the allow-list, verifies the signature, and then validates
  claims in the order of PyJWT's `_validate_claims`: exp, then iss,
  then aud (the issuer is validated before the audience).  The
  `nbf`/`iat` claims are not modelled (tokens are modelled without
  them, so their checks pass).
-/

/-- Decoded claim set of a token (the dict returned by `jwt.decode`).
Claims not relevant to the pipeline are kept in `extra`. -/
structure Claims where
  iss : Option String
  exp : Option Int
  aud : Option String
  sub : Option String
  name : Option String
  extra : List (String × String)
deriving DecidableEq

/-- A presented token, abstracted to the attributes the PyJWT
primitives observe of the raw string. -/
structure JWT where
  /-- the raw string splits into three dot-separated JWS segments
  (false for the empty string: "Not enough segments") -/
  segments3 : Bool
  /-- the header segment decodes to a JSON object -/
  headerOk : Bool
  /-- the payload segment decodes to a JSON object -/
  payloadOk : Bool
  /-- the `kid` declared in the header, if any -/
  kid : Option String
  /-- the `alg` declared in the header -/
  alg : String
  /-- the decoded claim set -/
  claims : Claims
  /-- key-id of the JWKS key under which the signature verifies,
  `none` when the signature verifies under no key in the set -/
  sigKid : Option String
deriving DecidableEq

/-- State of the remote JWKS endpoint: reachability and the key-ids it
serves. -/
structure JWKSEnv where
  reachable : Bool
  keys : List String
deriving DecidableEq

/-- The module-level configuration of `auth.py` (lines 24-28):
`AZURE_TENANT_ID`, `AZURE_CLIENT_ID`, `TOKEN_AUDIENCE`, `TOKEN_ISSUER`,
`ENABLE_AUTH`. -/
structure Config where
  tenantId : String
  clientId : String
  tokenAudience : String
  tokenIssuer : String
  enableAuth : Bool
deriving DecidableEq

/-- The remediation object placed in the 401 detail for a missing or
malformed Authorization header (lines 185-190). -/
structure Instructions where
  how_to_get_token : String
  token_endpoint : String
  required_scopes : String
  usage : String
deriving DecidableEq

/-- The `detail` of an `HTTPException`: either a plain string or the
structured dict with remediation instructions. -/
inductive Detail where
  | text (s : String)
  | instr (error message : String) (instructions : Instructions)
deriving DecidableEq

/-- An `HTTPException` as raised by `auth.py`: status code, detail, and
extra response headers. -/
structure HTTPErr where
  status : Nat
  detail : Detail
  headers : List (String × String)
deriving DecidableEq

/-- PyJWT failure kinds reachable from this pipeline.  All but
`keyLookup` are `InvalidTokenError` subclasses; `keyLookup`
(`PyJWKClientError` and friends) is not. -/
inductive JwtError where
  | decodeError (msg : String)
  | invalidAlgorithm
  | invalidSignature
  | expired
  | missingClaim (c : String)
  | invalidAudience
  | invalidIssuer
  | keyLookup
deriving DecidableEq

/-- `jwt.decode(token, options=dict verify_signature False)` (line 84):
parse-only decode.  Fails with `DecodeError` on a malformed token,
otherwise returns the claim set. -/
def jwtDecodeUnverified (t : JWT) : Except JwtError Claims :=
  if !t.segments3 then .error (.decodeError "Not enough segments")
  else if !t.headerOk then .error (.decodeError "Invalid header string")
  else if !t.payloadOk then .error (.decodeError "Invalid payload string")
  else .ok t.claims

/-- `PyJWKClient.get_signing_key_from_jwt(token)` (line 81): an
unverified decode of the whole token (header and payload), then a JWKS
fetch and a lookup of the declared `kid`.  An unreachable endpoint, an
absent `kid` header, or a `kid` not served by the endpoint all raise
`PyJWKClientError` (not an `InvalidTokenError`).  The resolved key is
identified by its key-id. -/
def get_signing_key_from_jwt (env : JWKSEnv) (t : JWT) : Except JwtError String :=
  match jwtDecodeUnverified t with
  | .error e => .error e
  | .ok _ =>
    if !env.reachable then .error .keyLookup
    else match t.kid with
      | none => .error .keyLookup
      | some kid => if kid ∈ env.keys then .ok kid else .error .keyLookup

/-- PyJWT `_validate_exp` with zero leeway: an absent `exp` claim
passes; `exp <= now` raises `ExpiredSignatureError`. -/
def validateExp (c : Claims) (now : Int) : Except JwtError Unit :=
  match c.exp with
  | none => .ok ()
  | some e => if e ≤ now then .error .expired else .ok ()

/-- PyJWT `_validate_aud` with a string `audience` argument: an absent
`aud` claim raises `MissingRequiredClaimError`, a mismatched one raises
`InvalidAudienceError`. -/
def validateAud (c : Claims) (audience : String) : Except JwtError Unit :=
  match c.aud with
  | none => .error (.missingClaim "aud")
  | some a => if a = audience then .ok () else .error .invalidAudience

/-- PyJWT `_validate_iss` with a list `issuer` argument (PyJWT >= 2.10):
an absent `iss` claim raises `MissingRequiredClaimError`, an `iss` not
in the list raises `InvalidIssuerError`. -/
def validateIss (c : Claims) (issuers : List String) : Except JwtError Unit :=
  match c.iss with
  | none => .error (.missingClaim "iss")
  | some i => if i ∈ issuers then .ok () else .error .invalidIssuer

/-- `jwt.decode(token, key, algorithms=RS256 only, audience, issuer,
all verify options on)` (lines 103-115): JWS parse, algorithm
allow-list check, signature verification (the payload JSON is parsed
after the JWS layer), then claim validation in the order of PyJWT's
`_validate_claims`: exp, then iss, then aud — the issuer is validated
before the audience. -/
def jwtDecodeVerified (t : JWT) (key : String) (audience : String)
    (issuers : List String) (now : Int) : Except JwtError Claims :=
  if !t.segments3 then .error (.decodeError "Not enough segments")
  else if !t.headerOk then .error (.decodeError "Invalid header string")
  else if t.alg ≠ "RS256" then .error .invalidAlgorithm
  else if t.sigKid ≠ some key then .error .invalidSignature
  else if !t.payloadOk then .error (.decodeError "Invalid payload string")
  else match validateExp t.claims now with
    | .error e => .error e
    | .ok _ =>
      match validateIss t.claims issuers with
      | .error e => .error e
      | .ok _ =>
        match validateAud t.claims audience with
        | .error e => .error e
        | .ok _ => .ok t.claims

/-- The except-clauses of `validate_token` (lines 121-135), mapping the
PyJWT exception to the raised `HTTPException`.  `keyLookup` is not an
`InvalidTokenError`, so it falls through to the generic handler. -/
def jwtErrorToHTTP : JwtError → HTTPErr
  | .expired => ⟨401, .text "Token has expired", []⟩
  | .invalidAudience => ⟨401, .text "Invalid token audience", []⟩
  | .invalidIssuer => ⟨401, .text "Invalid token issuer", []⟩
  | .decodeError msg => ⟨401, .text ("Invalid token: " ++ msg), []⟩
  | .invalidAlgorithm => ⟨401, .text "Invalid token: The specified alg value is not allowed", []⟩
  | .invalidSignature => ⟨401, .text "Invalid token: Signature verification failed", []⟩
  | .missingClaim c => ⟨401, .text ("Invalid token: Token is missing the \"" ++ c ++ "\" claim"), []⟩
  | .keyLookup => ⟨401, .text "Token validation failed", []⟩

/-- The `valid_issuers` list constructed inside `validate_token`
(lines 90-93): the v1.0 and v2.0 issuer forms for the configured
tenant. -/
def validIssuers (cfg : Config) : List String :=
  ["https://sts.windows.net/" ++ cfg.tenantId ++ "/",
   "https://login.microsoftonline.com/" ++ cfg.tenantId ++ "/v2.0"]

/-- `EntraIDAuth.validate_token` (lines 60-135): resolve the signing
key from the JWKS client, decode without verification to read the
issuer (used only for logging), then decode with full verification
against `TOKEN_AUDIENCE` and `valid_issuers`; every raised PyJWT error
is converted to a 401 `HTTPException` by the except-clauses. -/
def validate_token (cfg : Config) (env : JWKSEnv) (now : Int) (t : JWT) :
    Except HTTPErr Claims :=
  match get_signing_key_from_jwt env t with
  | .error e => .error (jwtErrorToHTTP e)
  | .ok signing_key =>
    match jwtDecodeUnverified t with
    | .error e => .error (jwtErrorToHTTP e)
    | .ok _unverified =>
      match jwtDecodeVerified t signing_key cfg.tokenAudience (validIssuers cfg) now with
      | .error e => .error (jwtErrorToHTTP e)
      | .ok decoded => .ok decoded

/-- The validation algorithm as the specification orders it,
short-circuiting on the first failure: (1) reject empty / malformed
(non-three-segment, unparseable header) token strings, (2) parse the
claims without signature verification, (3) resolve the signing key by
the declared key-id, (4) verify algorithm and signature, (5) verify
expiration, (6) verify audience, (7) verify issuer membership, (8)
return the decoded claim set.  This is the specification's claimed
ordering (audience before issuer), written from the spec's words to be
compared against the code's behaviour. -/
def validateSpecOrder (cfg : Config) (env : JWKSEnv) (now : Int) (t : JWT) :
    Except HTTPErr Claims :=
  if !t.segments3 then .error (jwtErrorToHTTP (.decodeError "Not enough segments"))
  else if !t.headerOk then .error (jwtErrorToHTTP (.decodeError "Invalid header string"))
  else if !t.payloadOk then .error (jwtErrorToHTTP (.decodeError "Invalid payload string"))
  else if !env.reachable then .error (jwtErrorToHTTP .keyLookup)
  else match t.kid with
    | none => .error (jwtErrorToHTTP .keyLookup)
    | some kid =>
      if kid ∉ env.keys then .error (jwtErrorToHTTP .keyLookup)
      else if t.alg ≠ "RS256" then .error (jwtErrorToHTTP .invalidAlgorithm)
      else if t.sigKid ≠ some kid then .error (jwtErrorToHTTP .invalidSignature)
      else match validateExp t.claims now with
        | .error e => .error (jwtErrorToHTTP e)
        | .ok _ =>
          match validateAud t.claims cfg.tokenAudience with
          | .error e => .error (jwtErrorToHTTP e)
          | .ok _ =>
            match validateIss t.claims (validIssuers cfg) with
            | .error e => .error (jwtErrorToHTTP e)
            | .ok _ => .ok t.claims

/-- The validation cascade in the order the code actually performs it:
identical to `validateSpecOrder` except that the issuer check runs
before the audience check, following PyJWT's `_validate_claims`. -/
def validateCodeOrder (cfg : Config) (env : JWKSEnv) (now : Int) (t : JWT) :
    Except HTTPErr Claims :=
  if !t.segments3 then .error (jwtErrorToHTTP (.decodeError "Not enough segments"))
  else if !t.headerOk then .error (jwtErrorToHTTP (.decodeError "Invalid header string"))
  else if !t.payloadOk then .error (jwtErrorToHTTP (.decodeError "Invalid payload string"))
  else if !env.reachable then .error (jwtErrorToHTTP .keyLookup)
  else match t.kid with
    | none => .error (jwtErrorToHTTP .keyLookup)
    | some kid =>
      if kid ∉ env.keys then .error (jwtErrorToHTTP .keyLookup)
      else if t.alg ≠ "RS256" then .error (jwtErrorToHTTP .invalidAlgorithm)
      else if t.sigKid ≠ some kid then .error (jwtErrorToHTTP .invalidSignature)
      else match validateExp t.claims now with
        | .error e => .error (jwtErrorToHTTP e)
        | .ok _ =>
          match validateIss t.claims (validIssuers cfg) with
          | .error e => .error (jwtErrorToHTTP e)
          | .ok _ =>
            match validateAud t.claims cfg.tokenAudience with
            | .error e => .error (jwtErrorToHTTP e)
            | .ok _ => .ok t.claims

/-- All checks of the pipeline at once: well-formedness, key
resolution, algorithm and signature, expiration, audience, issuer. -/
def allChecksPass (cfg : Config) (env : JWKSEnv) (now : Int) (t : JWT) : Bool :=
  t.segments3 && t.headerOk && t.payloadOk && env.reachable &&
  (match t.kid with
   | none => false
   | some kid => decide (kid ∈ env.keys) && (t.alg == "RS256") && (t.sigKid == some kid)) &&
  (match t.claims.exp with
   | none => true
   | some e => !decide (e ≤ now)) &&
  (t.claims.aud == some cfg.tokenAudience) &&
  (match t.claims.iss with
   | none => false
   | some i => decide (i ∈ validIssuers cfg))

/-- Status code of a validation outcome, `none` on success. -/
def errStatus : Except HTTPErr Claims → Option Nat
  | .ok _ => none
  | .error e => some e.status

/-! ## Auth Gate (middleware) and request-scoped claims -/

/-- Request-scoped state: `request.state.user`, present only after the
middleware has stored decoded claims there. -/
structure RequestState where
  user : Option Claims
deriving DecidableEq

/-- The attributes of an inbound request the gate reads: URL path,
`Authorization` header (if present), and request-scoped state. -/
structure Request where
  path : String
  authorization : Option String
  state : RequestState
deriving DecidableEq

/-- Python `s.startswith(pre)`: list-level prefix test on the
characters. -/
def pyStartsWith (s pre : String) : Bool :=
  s.data.take pre.data.length == pre.data

/-- Python `s.split(sep)` for a one-character separator: splits at
every occurrence, keeping empty segments (so it never returns an empty
list). -/
def pySplitChar (sep : Char) : List Char → List (List Char)
  | [] => [[]]
  | c :: cs =>
    if c = sep then [] :: pySplitChar sep cs
    else match pySplitChar sep cs with
      | [] => [[c]]
      | r :: rs => (c :: r) :: rs

/-- Python `s.split(" ")`. -/
def pySplitSpace (s : String) : List String :=
  (pySplitChar ' ' s.data).map (fun l => ⟨l⟩)

/-- The terminal state of the Auth Gate on one request: forwarded to
`call_next` (with the request state at that point) or rejected with a
raised `HTTPException`. -/
inductive GateOutcome where
  | forwarded (st : RequestState)
  | rejected (e : HTTPErr)
deriving DecidableEq

/-- The 401 `HTTPException` raised for a missing or non-Bearer
`Authorization` header (lines 180-193): structured detail with
remediation instructions, plus the `WWW-Authenticate: Bearer`
response header. -/
def missingCredentialError (cfg : Config) : HTTPErr :=
  ⟨401,
   .instr "unauthorized" "Missing or invalid authorization header"
     ⟨"Use client credentials flow to acquire a token from Microsoft Entra ID",
      "https://login.microsoftonline.com/" ++ cfg.tenantId ++ "/oauth2/v2.0/token",
      "api://" ++ cfg.clientId ++ "/user_read",
      "Include the token in the Authorization header as: Bearer <your_access_token>"⟩,
   [("WWW-Authenticate", "Bearer")]⟩

/-- `AuthMiddleware.__call__` (lines 158-207).  `validate` is the
validator the gate calls (`auth_handler.validate_token`); the second
component of the result is the list of token strings passed to it (the
validator invocation log).  The branches, in source order: excluded
path, auth disabled, missing or non-Bearer header, then token
extraction (`auth_header.split(" ")[1]`) and validation; a successful
validation stores the decoded claims in `request.state.user` before
forwarding, and a raised `HTTPException` is re-raised unchanged. -/
def authMiddleware (cfg : Config) (validate : String → Except HTTPErr Claims)
    (excluded_paths : List String) (req : Request) : GateOutcome × List String :=
  if excluded_paths.any (fun p => pyStartsWith req.path p) then
    (.forwarded req.state, [])
  else if !cfg.enableAuth then
    (.forwarded req.state, [])
  else
    match req.authorization with
    | none => (.rejected (missingCredentialError cfg), [])
    | some auth_header =>
      if auth_header = "" || !pyStartsWith auth_header "Bearer " then
        (.rejected (missingCredentialError cfg), [])
      else
        let token := (pySplitSpace auth_header).getD 1 ""
        match validate token with
        | .ok decoded => (.forwarded ⟨some decoded⟩, [token])
        | .error e => (.rejected e, [token])

/-- The default excluded path list of `AuthMiddleware.__init__`
(line 156). -/
def defaultExcludedPaths : List String := ["/docs", "/redoc", "/openapi.json", "/health"]

/-- The excluded path list `main.py` constructs the middleware with
(lines 55-57). -/
def mainExcludedPaths : List String := ["/health", "/docs"]

/-- The fixed placeholder identity returned by `get_current_user` when
authentication is disabled (line 221). -/
def developmentUserClaims : Claims :=
  { iss := none, exp := none, aud := none,
    sub := some "development-user", name := some "Development User", extra := [] }

/-- `get_current_user` (lines 210-226): the placeholder identity when
auth is disabled; otherwise the claims stored on the request state, or
a 401 when none are stored. -/
def get_current_user (cfg : Config) (st : RequestState) : Except HTTPErr Claims :=
  if !cfg.enableAuth then .ok developmentUserClaims
  else match st.user with
    | none => .error ⟨401, .text "User not authenticated", []⟩
    | some u => .ok u

/-! ## Concrete fixtures used by counterexamples and witnesses -/

/-- A configuration with auth enabled and the audience at its derived
default. -/
def cfg0 : Config :=
  { tenantId := "tenant-1", clientId := "client-1",
    tokenAudience := "api://client-1",
    tokenIssuer := "https://login.microsoftonline.com/tenant-1/v2.0",
    enableAuth := true }

/-- A reachable JWKS endpoint serving one key. -/
def env0 : JWKSEnv := { reachable := true, keys := ["key-1"] }

/-- A claim set that passes every check of `cfg0`/`env0` at time 1000. -/
def goodClaims : Claims :=
  { iss := some "https://sts.windows.net/tenant-1/", exp := some 2000,
    aud := some "api://client-1", sub := some "user-7", name := none, extra := [] }

/-- A token that passes every check of `cfg0`/`env0` at time 1000. -/
def tGood : JWT :=
  { segments3 := true, headerOk := true, payloadOk := true,
    kid := some "key-1", alg := "RS256", claims := goodClaims,
    sigKid := some "key-1" }

/-- A token identical to `tGood` except that its expiration is in the
past and its signature verifies under no key. -/
def tExpiredBadSig : JWT :=
  { segments3 := true, headerOk := true, payloadOk := true,
    kid := some "key-1", alg := "RS256",
    claims := { goodClaims with exp := some 500 }, sigKid := none }

/-- A token identical to `tGood` except that its expiration is in the
past (signature still valid). -/
def tExpiredGoodSig : JWT :=
  { tGood with claims := { goodClaims with exp := some 500 } }

/-- `cfg0` with the issuer configuration input set to a custom value. -/
def cfgCustomIssuer : Config := { cfg0 with tokenIssuer := "https://custom.example/" }

/-- A token identical to `tGood` except that its issuer claim equals
the custom configured issuer of `cfgCustomIssuer`. -/
def tCustomIssuer : JWT :=
  { tGood with claims := { goodClaims with iss := some "https://custom.example/" } }

/-- A token identical to `tGood` but carrying the v2.0 issuer form. -/
def tGoodV2 : JWT :=
  { tGood with
    claims := { goodClaims with iss := some "https://login.microsoftonline.com/tenant-1/v2.0" } }

/-- A token identical to `tGood` except that both its audience claim
and its issuer claim are wrong. -/
def tBadAudIss : JWT :=
  { tGood with
    claims := { goodClaims with aud := some "api://other-app",
                                iss := some "https://evil.example/" } }

/-- `cfg0` with authentication globally disabled. -/
def cfgDisabled : Config := { cfg0 with enableAuth := false }

/-- A request to a protected path with no Authorization header and
fresh state. -/
def reqBare : Request := { path := "/echo", authorization := none, state := ⟨none⟩ }

/-- A request to an excluded path with no Authorization header. -/
def reqHealth : Request := { path := "/health", authorization := none, state := ⟨none⟩ }

/-- A request presenting the wrong authorization scheme. -/
def reqWrongScheme : Request :=
  { path := "/echo", authorization := some "Token abc", state := ⟨none⟩ }

/-- A request whose Authorization header has two spaces after the
scheme. -/
def reqTwoSpaces : Request :=
  { path := "/echo", authorization := some "Bearer  x", state := ⟨none⟩ }

/-- A request whose bearer credential contains an interior space. -/
def reqSpacedToken : Request :=
  { path := "/echo", authorization := some "Bearer abc def", state := ⟨none⟩ }

/-- A request with a well-formed bearer header and fresh state. -/
def reqBearerGood : Request :=
  { path := "/echo", authorization := some "Bearer sometoken", state := ⟨none⟩ }

/-- A validator stub that records in its error detail the token string
it received. -/
def vLog : String → Except HTTPErr Claims :=
  fun s => .error ⟨401, .text ("validator received: " ++ s), []⟩

/-- A token-string parse oracle mapping every raw string to `tGood`
(used to instantiate the gate with the real validator). -/
def parseAllGood : String → JWT := fun _ => tGood

/-! ## Helper lemmas -/

/-- Every PyJWT failure is converted to status 401 by the
except-clauses. -/
theorem jwtErrorToHTTP_status (e : JwtError) : (jwtErrorToHTTP e).status = 401 := by
  cases e <;> rfl

/-- The code's `validate_token` computes exactly the short-circuiting
cascade in the code's order: inside `get_signing_key_from_jwt`, PyJWT
parses the whole token (rejecting empty/malformed strings and
unparseable claims) before the key-id lookup, so the observable check
order is parse, key resolution, signature, expiration, issuer,
audience. -/
theorem validate_token_eq_cascade (cfg : Config) (env : JWKSEnv) (now : Int) (t : JWT) :
    validate_token cfg env now t = validateCodeOrder cfg env now t := by
  rcases t with ⟨s3, hok, pok, kid, alg, cls, sig⟩
  rcases env with ⟨reach, keys⟩
  simp only [validate_token, validateCodeOrder, get_signing_key_from_jwt,
    jwtDecodeUnverified, jwtDecodeVerified]
  cases s3 <;> cases hok <;> cases pok <;> cases reach <;> simp
  · cases kid with
    | none => simp
    | some k =>
      by_cases hk : k ∈ keys
      · simp [hk]
        by_cases ha : alg = "RS256"
        · simp [ha]
          by_cases hs : sig = some k
          · simp [hs]
            cases validateExp cls now <;> simp
            cases validateIss cls (validIssuers cfg) <;> simp
            cases validateAud cls cfg.tokenAudience <;> simp
          · simp [hs]
        · simp [ha]
      · simp [hk]

/-- Full characterization of the cascade: success yields exactly the
decoded claim set and happens exactly when every check passes;
otherwise the outcome is a 401 error. -/
theorem cascade_characterization (cfg : Config) (env : JWKSEnv) (now : Int) (t : JWT) :
    (validateCodeOrder cfg env now t = .ok t.claims ↔ allChecksPass cfg env now t = true) ∧
    (validateCodeOrder cfg env now t).isOk = allChecksPass cfg env now t ∧
    ((validateCodeOrder cfg env now t).isOk = true ∨
      errStatus (validateCodeOrder cfg env now t) = some 401) := by
  rcases t with ⟨s3, hok, pok, kid, alg, cls, sig⟩
  rcases env with ⟨reach, keys⟩
  rcases cls with ⟨iss, exp, aud, sub, nm, extra⟩
  simp only [validateCodeOrder, allChecksPass, validateExp, validateAud, validateIss,
    errStatus, Except.isOk, Except.toBool, jwtErrorToHTTP]
  cases s3 <;> cases hok <;> cases pok <;> cases reach <;> simp [Except.toBool]
  · cases kid with
    | none => simp [Except.toBool]
    | some k =>
      by_cases hk : k ∈ keys
      · simp [hk, Except.toBool]
        by_cases ha : alg = "RS256"
        · simp [ha, Except.toBool]
          by_cases hs : sig = some k
          · simp [hs, Except.toBool]
            cases exp with
            | none =>
              simp [Except.toBool]
              cases iss with
              | none => simp [Except.toBool]
              | some i =>
                by_cases hi : i ∈ validIssuers cfg
                · simp [hi, Except.toBool]
                  cases aud with
                  | none => simp [Except.toBool]
                  | some a =>
                    by_cases haud : a = cfg.tokenAudience
                    · simp [haud, Except.toBool]
                    · simp [haud, Except.toBool]
                · simp [hi, Except.toBool]
            | some e =>
              by_cases he : e ≤ now
              · simp [he, Except.toBool]
              · simp [he, Except.toBool]
                cases iss with
                | none => simp [Except.toBool]
                | some i =>
                  by_cases hi : i ∈ validIssuers cfg
                  · simp [hi, Except.toBool]
                    cases aud with
                    | none => simp [Except.toBool]
                    | some a =>
                      by_cases haud : a = cfg.tokenAudience
                      · simp [haud, Except.toBool]
                      · simp [haud, Except.toBool]
                  · simp [hi, Except.toBool]
          · simp [hs, Except.toBool]
        · simp [ha, Except.toBool]
      · simp [hk, Except.toBool]

/-! ## Claim theorems -/

/-- C1 counterexample: a token that fails both the audience check and
the issuer check (and passes everything earlier) is rejected by
`validate_token` with "Invalid token issuer", while the
specification-ordered cascade (audience before issuer) reports
"Invalid token audience" — the code does not perform the aud/iss pair
in the claimed order. -/
theorem spec_check_order_counterexample :
    tBadAudIss.claims.aud = some "api://other-app" ∧
    tBadAudIss.claims.iss = some "https://evil.example/" ∧
    validate_token cfg0 env0 1000 tBadAudIss =
      .error ⟨401, .text "Invalid token issuer", []⟩ ∧
    validateSpecOrder cfg0 env0 1000 tBadAudIss =
      .error ⟨401, .text "Invalid token audience", []⟩ ∧
    Detail.text "Invalid token issuer" ≠ Detail.text "Invalid token audience" :=
  ⟨rfl, rfl, rfl, rfl, by decide⟩

/-- C1 amended: the Token Validator performs its checks short-circuiting
on the first failure in the order: reject empty or non-three-segment
token strings, parse the claims without signature verification, resolve
the signing key by the declared key-id, then verify signature,
expiration, ISSUER, and audience — the specified order except that the
issuer check precedes the audience check (PyJWT validates `iss` before
`aud`): `validate_token` equals this code-ordered cascade on every
input. -/
theorem validate_token_check_order_iss_before_aud (cfg : Config) (env : JWKSEnv)
    (now : Int) (t : JWT) :
    validate_token cfg env now t = validateCodeOrder cfg env now t :=
  validate_token_eq_cascade cfg env now t

/-- C2 counterexample: a token whose expiration claim is in the past but
whose signature is invalid fails with the signature error, not with
"Token has expired" — expiration does not win regardless of signature
validity. -/
theorem expired_regardless_of_signature_counterexample :
    tExpiredBadSig.claims.exp = some 500 ∧ (500 : Int) ≤ 1000 ∧
    validate_token cfg0 env0 1000 tExpiredBadSig =
      .error ⟨401, .text "Invalid token: Signature verification failed", []⟩ ∧
    Detail.text "Invalid token: Signature verification failed" ≠
      Detail.text "Token has expired" :=
  ⟨rfl, by decide, rfl, by decide⟩

/-- C2 amended: for every token that parses, whose key resolves, and
whose signature verifies under the resolved key with the fixed
algorithm, an expiration claim in the past makes `validate_token` fail
with 401 "Token has expired". -/
theorem expired_token_rejected (cfg : Config) (env : JWKSEnv) (now : Int) (t : JWT)
    (k : String) (e : Int)
    (h1 : t.segments3 = true) (h2 : t.headerOk = true) (h3 : t.payloadOk = true)
    (h4 : env.reachable = true) (h5 : t.kid = some k) (h6 : k ∈ env.keys)
    (h7 : t.alg = "RS256") (h8 : t.sigKid = some k)
    (h9 : t.claims.exp = some e) (h10 : e ≤ now) :
    validate_token cfg env now t = .error ⟨401, .text "Token has expired", []⟩ := by
  simp [validate_token, get_signing_key_from_jwt, jwtDecodeUnverified, jwtDecodeVerified,
    validateExp, jwtErrorToHTTP, h1, h2, h3, h4, h5, h6, h7, h8, h9, h10]

/-- C2 witness: an expired, correctly signed token is rejected as
expired. -/
theorem expired_token_rejected_witness :
    validate_token cfg0 env0 1000 tExpiredGoodSig =
      .error ⟨401, .text "Token has expired", []⟩ :=
  expired_token_rejected cfg0 env0 1000 tExpiredGoodSig "key-1" 500
    rfl rfl rfl rfl rfl (by decide) rfl rfl rfl (by decide)

/-- C3 counterexample: with the issuer configuration input
(`TOKEN_ISSUER`) set to a custom value, a token whose issuer claim
equals exactly that configured value — and which passes every other
check — is still rejected with "Invalid token issuer": the configured
issuer input never reaches `validate_token`. -/
theorem issuer_config_counterexample :
    cfgCustomIssuer.tokenIssuer = "https://custom.example/" ∧
    tCustomIssuer.claims.iss = some "https://custom.example/" ∧
    validate_token cfgCustomIssuer env0 1000 tCustomIssuer =
      .error ⟨401, .text "Invalid token issuer", []⟩ :=
  ⟨rfl, rfl, rfl⟩

/-- C3 amended: the issuer set accepted by `validate_token` is always
the two hard-coded tenant-derived forms; the `TOKEN_ISSUER`
configuration input, though read at startup, is never consulted, so
changing it changes nothing about which issuer claims validate. -/
theorem issuer_config_ignored (cfg : Config) (x : String) (env : JWKSEnv)
    (now : Int) (t : JWT) :
    validate_token { cfg with tokenIssuer := x } env now t = validate_token cfg env now t ∧
    validIssuers cfg =
      ["https://sts.windows.net/" ++ cfg.tenantId ++ "/",
       "https://login.microsoftonline.com/" ++ cfg.tenantId ++ "/v2.0"] :=
  ⟨rfl, rfl⟩

/-- C4: every token whose issuer claim equals either accepted
tenant-issuer form (v1.0 `https://sts.windows.net/tenant/` or v2.0
`https://login.microsoftonline.com/tenant/v2.0`) and which passes all
other checks validates successfully and returns the decoded claims. -/
theorem two_issuer_forms_accepted (cfg : Config) (env : JWKSEnv) (now : Int)
    (t : JWT) (k : String)
    (h1 : t.segments3 = true) (h2 : t.headerOk = true) (h3 : t.payloadOk = true)
    (h4 : env.reachable = true) (h5 : t.kid = some k) (h6 : k ∈ env.keys)
    (h7 : t.alg = "RS256") (h8 : t.sigKid = some k)
    (h9 : validateExp t.claims now = .ok ())
    (h10 : t.claims.aud = some cfg.tokenAudience)
    (h11 : t.claims.iss = some ("https://sts.windows.net/" ++ cfg.tenantId ++ "/") ∨
           t.claims.iss = some ("https://login.microsoftonline.com/" ++ cfg.tenantId ++ "/v2.0")) :
    validate_token cfg env now t = .ok t.claims := by
  have hiss : validateIss t.claims (validIssuers cfg) = .ok () := by
    rcases h11 with h | h <;> simp [validateIss, h, validIssuers]
  simp [validate_token, get_signing_key_from_jwt, jwtDecodeUnverified, jwtDecodeVerified,
    validateAud, h1, h2, h3, h4, h5, h6, h7, h8, h9, h10, hiss]

/-- C4 witness: one otherwise-valid token per issuer form, both
accepted. -/
theorem two_issuer_forms_accepted_witness :
    validate_token cfg0 env0 1000 tGood = .ok tGood.claims ∧
    validate_token cfg0 env0 1000 tGoodV2 = .ok tGoodV2.claims :=
  ⟨two_issuer_forms_accepted cfg0 env0 1000 tGood "key-1"
      rfl rfl rfl rfl rfl (by decide) rfl rfl rfl rfl (Or.inl (by decide)),
   two_issuer_forms_accepted cfg0 env0 1000 tGoodV2 "key-1"
      rfl rfl rfl rfl rfl (by decide) rfl rfl rfl rfl (Or.inr (by decide))⟩

/-- C5: `validate_token` returns a claim set (the full decoded claims)
exactly when every check — key resolution, signature, expiration,
audience, issuer — succeeds; every failure is an error with status 401,
and the failure modes map to pairwise distinct named errors.  No
failure is downgraded to success under any condition. -/
theorem success_iff_every_check_passes (cfg : Config) (env : JWKSEnv) (now : Int) (t : JWT) :
    (validate_token cfg env now t = .ok t.claims ↔ allChecksPass cfg env now t = true) ∧
    (validate_token cfg env now t).isOk = allChecksPass cfg env now t ∧
    ((validate_token cfg env now t).isOk = true ∨
      errStatus (validate_token cfg env now t) = some 401) ∧
    List.Pairwise Ne
      [jwtErrorToHTTP (.decodeError "Not enough segments"),
       jwtErrorToHTTP (.decodeError "Invalid header string"),
       jwtErrorToHTTP (.decodeError "Invalid payload string"),
       jwtErrorToHTTP .keyLookup, jwtErrorToHTTP .invalidAlgorithm,
       jwtErrorToHTTP .invalidSignature, jwtErrorToHTTP .expired,
       jwtErrorToHTTP (.missingClaim "aud"), jwtErrorToHTTP .invalidAudience,
       jwtErrorToHTTP (.missingClaim "iss"), jwtErrorToHTTP .invalidIssuer] := by
  have h := cascade_characterization cfg env now t
  rw [← validate_token_eq_cascade] at h
  exact ⟨h.1, h.2.1, h.2.2, by decide⟩

/-- C6: for every request whose path starts with one of the configured
allow-list prefixes, the gate forwards the request (state untouched)
without invoking the Token Validator or doing any token handling — the
outcome is the same for every validator and every Authorization header,
and the validator invocation log is empty. -/
theorem excluded_path_skips_validator (cfg : Config)
    (validate : String → Except HTTPErr Claims) (excluded_paths : List String) (req : Request)
    (h : excluded_paths.any (fun p => pyStartsWith req.path p) = true) :
    authMiddleware cfg validate excluded_paths req = (.forwarded req.state, []) := by
  simp [authMiddleware, h]

/-- C6 witness: a request to /health with no Authorization header is
forwarded untouched with an empty invocation log. -/
theorem excluded_path_skips_validator_witness :
    mainExcludedPaths.any (fun p => pyStartsWith reqHealth.path p) = true ∧
    reqHealth.authorization = none ∧
    authMiddleware cfg0 vLog mainExcludedPaths reqHealth = (.forwarded reqHealth.state, []) :=
  ⟨by decide, rfl, excluded_path_skips_validator cfg0 vLog mainExcludedPaths reqHealth (by decide)⟩

/-- C7: on a protected path with auth enabled, an absent, empty, or
non-Bearer Authorization header is rejected with the 401 whose detail
carries the remediation instructions (token endpoint URL, required
scope, usage example) and whose headers carry WWW-Authenticate: Bearer,
without the validator ever being invoked (empty log, outcome
independent of the validator). -/
theorem missing_bearer_rejected_with_instructions (cfg : Config)
    (validate : String → Except HTTPErr Claims) (excluded_paths : List String) (req : Request)
    (hex : excluded_paths.any (fun p => pyStartsWith req.path p) = false)
    (hen : cfg.enableAuth = true)
    (hhdr : (match req.authorization with
             | none => true
             | some h => h = "" || !pyStartsWith h "Bearer ") = true) :
    authMiddleware cfg validate excluded_paths req = (.rejected (missingCredentialError cfg), []) ∧
    (missingCredentialError cfg).status = 401 ∧
    (missingCredentialError cfg).headers = [("WWW-Authenticate", "Bearer")] ∧
    (missingCredentialError cfg).detail =
      .instr "unauthorized" "Missing or invalid authorization header"
        ⟨"Use client credentials flow to acquire a token from Microsoft Entra ID",
         "https://login.microsoftonline.com/" ++ cfg.tenantId ++ "/oauth2/v2.0/token",
         "api://" ++ cfg.clientId ++ "/user_read",
         "Include the token in the Authorization header as: Bearer <your_access_token>"⟩ := by
  refine ⟨?_, rfl, rfl, rfl⟩
  rcases hauth : req.authorization with _ | h
  · simp [authMiddleware, hex, hen, hauth]
  · rw [hauth] at hhdr
    simp only [decide_eq_true_eq, Bool.or_eq_true, Bool.not_eq_true] at hhdr
    rcases hhdr with he | hb
    · simp [authMiddleware, hex, hen, hauth, he]
    · simp [authMiddleware, hex, hen, hauth, hb]

/-- C7 witness: a request with the wrong scheme (`Authorization: Token
abc`) is rejected with the instructions-bearing 401. -/
theorem missing_bearer_witness :
    mainExcludedPaths.any (fun p => pyStartsWith reqWrongScheme.path p) = false ∧
    reqWrongScheme.authorization = some "Token abc" ∧
    authMiddleware cfg0 vLog mainExcludedPaths reqWrongScheme =
      (.rejected (missingCredentialError cfg0), []) ∧
    (missingCredentialError cfg0).headers = [("WWW-Authenticate", "Bearer")] :=
  ⟨by decide, rfl,
   (missing_bearer_rejected_with_instructions cfg0 vLog mainExcludedPaths reqWrongScheme
      (by decide) rfl (by decide)).1,
   rfl⟩

/-- C8 counterexample: with authentication globally disabled, the gate
forwards the request with NO identity attached — the request state
stays `none`, which differs from having the fixed placeholder identity
attached as the request claims. -/
theorem auth_disabled_counterexample :
    authMiddleware cfgDisabled vLog mainExcludedPaths reqBare = (.forwarded ⟨none⟩, []) ∧
    (RequestState.mk none).user = none ∧
    RequestState.mk none ≠ RequestState.mk (some developmentUserClaims) :=
  ⟨rfl, rfl, by decide⟩

/-- C8 amended: with authentication globally disabled the gate forwards
every request with its state untouched (no claims attached) and never
invokes the validator (empty log, outcome independent of the
validator); the fixed synthetic placeholder identity is instead
supplied by `get_current_user` whenever a handler reads the claims of
such a request. -/
theorem auth_disabled_forwards_without_claims (cfg : Config)
    (validate : String → Except HTTPErr Claims) (excluded_paths : List String) (req : Request)
    (h : cfg.enableAuth = false) :
    authMiddleware cfg validate excluded_paths req = (.forwarded req.state, []) ∧
    get_current_user cfg req.state = .ok developmentUserClaims := by
  constructor
  · by_cases hex : excluded_paths.any (fun p => pyStartsWith req.path p) = true
    · simp [authMiddleware, hex]
    · simp only [Bool.not_eq_true] at hex
      simp [authMiddleware, hex, h]
  · simp [get_current_user, h]

/-- C8 amended witness. -/
theorem auth_disabled_forwards_without_claims_witness :
    authMiddleware cfgDisabled vLog mainExcludedPaths reqBare = (.forwarded reqBare.state, []) ∧
    get_current_user cfgDisabled reqBare.state = .ok developmentUserClaims :=
  auth_disabled_forwards_without_claims cfgDisabled vLog mainExcludedPaths reqBare rfl

/-- C9: when the Authorization header starts with "Bearer ", the string
handed to the validator is exactly the second space-delimited segment
of the header (Python `auth_header.split(" ")[1]`), and the gate
proceeds to validation with it. -/
theorem bearer_token_is_second_space_segment (cfg : Config)
    (validate : String → Except HTTPErr Claims) (excluded_paths : List String) (req : Request)
    (h : String)
    (hex : excluded_paths.any (fun p => pyStartsWith req.path p) = false)
    (hen : cfg.enableAuth = true)
    (hauth : req.authorization = some h)
    (hbearer : pyStartsWith h "Bearer " = true) :
    (authMiddleware cfg validate excluded_paths req).2 = [(pySplitSpace h).getD 1 ""] ∧
    authMiddleware cfg validate excluded_paths req =
      (match validate ((pySplitSpace h).getD 1 "") with
       | .ok decoded => (.forwarded ⟨some decoded⟩, [(pySplitSpace h).getD 1 ""])
       | .error e => (.rejected e, [(pySplitSpace h).getD 1 ""])) := by
  have hne : ¬h = "" := by
    intro he
    rw [he] at hbearer
    simp [pyStartsWith] at hbearer
  have hmw : authMiddleware cfg validate excluded_paths req =
      (match validate ((pySplitSpace h).getD 1 "") with
       | .ok decoded => (.forwarded ⟨some decoded⟩, [(pySplitSpace h).getD 1 ""])
       | .error e => (.rejected e, [(pySplitSpace h).getD 1 ""])) := by
    simp [authMiddleware, hex, hen, hauth, hbearer, hne]
  refine ⟨?_, hmw⟩
  rw [hmw]
  cases validate ((pySplitSpace h).getD 1 "") <;> simp

/-- C9 witness: `Bearer  x` (two spaces) hands the empty string to the
validator instead of being rejected as a missing credential, and a
credential with an interior space (`Bearer abc def`) is truncated at
the space. -/
theorem bearer_token_is_second_space_segment_witness :
    (authMiddleware cfg0 vLog mainExcludedPaths reqTwoSpaces).2 = [""] ∧
    (authMiddleware cfg0 vLog mainExcludedPaths reqTwoSpaces).1 ≠
      .rejected (missingCredentialError cfg0) ∧
    (authMiddleware cfg0 vLog mainExcludedPaths reqSpacedToken).2 = ["abc"] := by
  refine ⟨?_, by decide, ?_⟩
  · have h := bearer_token_is_second_space_segment cfg0 vLog mainExcludedPaths reqTwoSpaces
      "Bearer  x" (by decide) rfl rfl (by decide)
    rw [h.1]
    rfl
  · have h := bearer_token_is_second_space_segment cfg0 vLog mainExcludedPaths reqSpacedToken
      "Bearer abc def" (by decide) rfl rfl (by decide)
    rw [h.1]
    rfl

/-- C10: with auth enabled, for a request entering the gate with no
stored claims, whenever the gate forwards it and `get_current_user`
returns a claim mapping, that mapping is exactly the result of a
successful `validate_token` call on the token the gate extracted; and
for any state without stored claims `get_current_user` raises 401. -/
theorem claims_only_from_successful_validation (cfg : Config) (env : JWKSEnv) (now : Int)
    (parse : String → JWT) (excluded_paths : List String) (req : Request)
    (st : RequestState) (log : List String)
    (hen : cfg.enableAuth = true)
    (hfresh : req.state.user = none)
    (hmw : authMiddleware cfg (fun s => validate_token cfg env now (parse s))
             excluded_paths req = (.forwarded st, log)) :
    (∀ c, get_current_user cfg st = .ok c →
        ∃ tok, log = [tok] ∧ validate_token cfg env now (parse tok) = .ok c) ∧
    (st.user = none →
        get_current_user cfg st = .error ⟨401, .text "User not authenticated", []⟩) := by
  constructor
  · intro c hgcu
    by_cases hex : excluded_paths.any (fun p => pyStartsWith req.path p) = true
    · simp [authMiddleware, hex] at hmw
      rcases hmw with ⟨hst, hlog⟩
      rw [← hst] at hgcu
      simp [get_current_user, hen, hfresh] at hgcu
    · simp only [Bool.not_eq_true] at hex
      rcases hauth : req.authorization with _ | hdr
      · simp [authMiddleware, hex, hen, hauth] at hmw
      · by_cases hb : (hdr = "" || !pyStartsWith hdr "Bearer ") = true
        · simp only [authMiddleware, hex, hen, hauth, hb] at hmw
          simp at hmw
        · rcases hv : validate_token cfg env now (parse ((pySplitSpace hdr)[1]?.getD "")) with e | d
          · simp [authMiddleware, hex, hen, hauth, hb, hv] at hmw
          · simp [authMiddleware, hex, hen, hauth, hb, hv] at hmw
            rcases hmw with ⟨hst, hlog⟩
            refine ⟨(pySplitSpace hdr)[1]?.getD "", by rw [← hlog], ?_⟩
            rw [hv]
            rw [← hst] at hgcu
            simp [get_current_user, hen] at hgcu
            rw [hgcu]
  · intro hnone
    simp [get_current_user, hen, hnone]

/-- C10 witness: a forwarded bearer request yields via
`get_current_user` exactly the claims validated from its token, and a
fresh state yields the 401. -/
theorem claims_only_from_successful_validation_witness :
    (∃ tok, (["sometoken"] : List String) = [tok] ∧
       validate_token cfg0 env0 1000 (parseAllGood tok) = .ok goodClaims) ∧
    get_current_user cfg0 ⟨none⟩ = .error ⟨401, .text "User not authenticated", []⟩ :=
  ⟨(claims_only_from_successful_validation cfg0 env0 1000 parseAllGood mainExcludedPaths
      reqBearerGood ⟨some goodClaims⟩ ["sometoken"] rfl rfl (by decide)).1 goodClaims rfl,
   (claims_only_from_successful_validation cfg0 env0 1000 parseAllGood mainExcludedPaths
      reqHealth ⟨none⟩ [] rfl rfl (by decide)).2 rfl⟩
